import Mathlib

set_option linter.unusedVariables false

/-!
Shallow embedding of `src/views/sqlPreview.ts`, the `SqlPreview` webview
controller of the prql-code extension.

The external collaborators that the file consumes are modelled as data:
the PRQL compiler as a function returning either generated SQL or a list of
structured diagnostics (the source distinguishes the two cases with
`Array.isArray`); the shiki highlighter as a function from SQL text to an
HTML fragment (`codeToHtml` with `lang: 'sql'`); and the VS Code host as a
receiver of explicit `Effect` values (`commands.executeCommand('setContext', ...)`,
`context.workspaceState.update(...)`, `webview.postMessage(...)`) listed in
the order in which the source issues those calls, with the `await`/`.then`
suspension points reflected in that order.

The process-wide view tracking of the class (`SqlPreview._views`,
`SqlPreview.currentView`) is modelled by `RegistryState`, with panel
instances carrying a numeric identity so that reference equality between a
disposed instance and a freshly constructed one can be expressed.
-/

namespace SqlPreview

/-- Model of `vscode.Uri` as used by the source: only the scheme and the
file-system path are ever consulted (`documentUri.with({scheme: 'prql'})`,
`uri.fsPath`, `uri.toString(true)`). -/
structure Uri where
  scheme : String
  fsPath : String
deriving DecidableEq

/-- Rendering of a Uri to a string, standing for `uri.toString(true)`
(skip encoding) which the source uses as the registry key. -/
def Uri.toStr (u : Uri) : String :=
  u.scheme ++ "://" ++ u.fsPath

/-- `documentUri.with({scheme: 'prql'})` — the derived view Uri
(lines 61 and 138 of the source). -/
def viewUriOf (documentUri : Uri) : Uri :=
  { documentUri with scheme := "prql" }

/-- The key under which a document's preview is tracked in
`SqlPreview._views`: `viewUri.toString(true)`. -/
def viewKey (documentUri : Uri) : String :=
  (viewUriOf documentUri).toStr

/-- One structured diagnostic returned by the external `compile` function:
the source reads `sqlCode[0].display ?? sqlCode[0].reason` (line 387). -/
structure Diagnostic where
  display : Option String
  reason : String
deriving DecidableEq

/-- The result objects built by `compilePrql` (lines 384-390 and 397):
`{status: 'ok', sqlHtml, sql}` or `{status: 'error', error: {message}, lastSqlHtml}`. -/
inductive CompilationResult where
  | ok (sqlHtml : String) (sql : String)
  | error (message : String) (lastSqlHtml : Option String)
deriving DecidableEq

/-- The `status` field of a compilation result. -/
def CompilationResult.status : CompilationResult → String
  | .ok _ _ => "ok"
  | .error _ _ => "error"

/-- The `sql` field of a compilation result as accessed by `processPrql`
(line 365): present on the ok object, `undefined` on the error object. -/
def CompilationResult.sqlField : CompilationResult → Option String
  | .ok _ sql => some sql
  | .error _ _ => none

/-- Messages the panel posts to its webview
(`webview.postMessage({command: ...})`, lines 197, 289-292, 358-361). -/
inductive WebviewMessage where
  | update (result : CompilationResult)
  | refresh (documentUrl : String)
  | changeTheme
deriving DecidableEq

/-- Host-visible side effects issued by the panel, in source order:
`commands.executeCommand('setContext', ViewContext.SqlPreviewActive, b)`,
`commands.executeCommand('setContext', ViewContext.LastActivePrqlDocumentUri, uri)`,
`context.workspaceState.update(key, value)`, `webview.postMessage(m)`, and a
marker for an invocation of the external compiler. -/
inductive Effect where
  | setContextActive (value : Bool)
  | setContextLastDoc (documentUri : Uri)
  | setWorkspaceState (key : String) (value : Option String)
  | post (message : WebviewMessage)
  | compileRun (source : String)
deriving DecidableEq

/-- The two external collaborators of the render cycle: `compile` from
`../compiler` (SQL string, or an array of diagnostics), and the shiki
highlighter's `codeToHtml( . , {lang: 'sql'})`. -/
structure Env where
  compile : String → String ⊕ List Diagnostic
  codeToHtml : String → String

/-- The parts of a `vscode.TextEditor` consulted by `update` (lines 305-311):
`editor.document.languageId`, `editor.document.uri.fsPath`,
`editor.document.getText()`. -/
structure Editor where
  languageId : String
  fsPath : String
  text : String
deriving DecidableEq

/-- Per-panel mutable state consulted by the update cycle: `_lastSqlHtml`
(line 45), and the webview panel's `visible` and `active` flags. -/
structure PanelState where
  lastSqlHtml : Option String
  visible : Bool
  active : Bool
deriving DecidableEq

/-- Host state mutated through `Effect`s: the two context flags, the
workspace state (a key-value store read here only at `'prql.sql'`), and the
list of messages posted to the webview. -/
structure HostState where
  sqlPreviewActive : Bool
  lastActiveDocUri : Option Uri
  workspaceState : String → Option String
  posted : List WebviewMessage

/-- `resetSqlPreviewContext` (lines 328-332): sets the preview-active flag
and the last-active-document flag for this panel's document. -/
def resetSqlPreviewContext (documentUri : Uri) : List Effect :=
  [Effect.setContextActive true, Effect.setContextLastDoc documentUri]

/-- `clearSqlPreviewContext` (lines 339-342): clears the preview-active flag
and writes `undefined` to workspace state under the fixed key `'prql.sql'`. -/
def clearSqlPreviewContext : List Effect :=
  [Effect.setContextActive false, Effect.setWorkspaceState "prql.sql" none]

/-- Interpretation of one host effect on the host state. -/
def applyEffect (h : HostState) : Effect → HostState
  | Effect.setContextActive b => { h with sqlPreviewActive := b }
  | Effect.setContextLastDoc u => { h with lastActiveDocUri := some u }
  | Effect.setWorkspaceState key v =>
      { h with workspaceState := fun k => if k = key then v else h.workspaceState k }
  | Effect.post m => { h with posted := h.posted ++ [m] }
  | Effect.compileRun _ => h

/-- Interpretation of a list of host effects, first to last. -/
def applyEffects (h : HostState) (effects : List Effect) : HostState :=
  effects.foldl applyEffect h

/-- `compilePrql` (lines 377-398). `none` models the `TypeError` the source
would raise on an empty diagnostics array (it reads `sqlCode[0]` without a
length check); the external compiler documents the array as non-empty.
On diagnostics the error result carries `sqlCode[0].display ?? sqlCode[0].reason`
and the `lastSqlHtml` argument unchanged; on success the highlighter renders
the SQL and the ok result carries both the HTML and the raw SQL. -/
def compilePrql (env : Env) (prqlCode : String) (lastSqlHtml : Option String) :
    Option CompilationResult :=
  match env.compile prqlCode with
  | Sum.inr diags =>
    match diags with
    | [] => none
    | d :: _ => some (CompilationResult.error (d.display.getD d.reason) lastSqlHtml)
  | Sum.inl sqlCode => some (CompilationResult.ok (env.codeToHtml sqlCode) sqlCode)

/-- The assignment `this._lastSqlHtml = compilationResult.sqlHtml` performed
by `processPrql` only when `compilationResult.status === 'ok'` (lines 352-355). -/
def newLastSqlHtml (lastSqlHtml : Option String) : CompilationResult → Option String
  | .ok sqlHtml _ => some sqlHtml
  | .error _ _ => lastSqlHtml

/-- `processPrql` (lines 350-367). Returns the new `_lastSqlHtml` value, the
effects issued before control returns to the caller (the compiler runs
synchronously inside the un-awaited `compilePrql` call), and the effects of
the `.then` continuation: post the `update` message, `resetSqlPreviewContext`,
then `context.workspaceState.update('prql.sql', compilationResult.sql)` —
on an error result that field is `undefined`, so the mirrored SQL is erased. -/
def processPrql (env : Env) (docUri : Uri) (lastSqlHtml : Option String)
    (prqlCode : String) : Option (Option String × List Effect × List Effect) :=
  match compilePrql env prqlCode lastSqlHtml with
  | none => none
  | some r =>
    some (newLastSqlHtml lastSqlHtml r,
      [Effect.compileRun prqlCode],
      [Effect.post (WebviewMessage.update r)]
        ++ resetSqlPreviewContext docUri
        ++ [Effect.setWorkspaceState "prql.sql" r.sqlField])

/-- JavaScript truthiness of the optional `prqlCode` argument in
`else if (prqlCode)` (line 314): `undefined` and the empty string are falsy. -/
def truthyPrqlCode : Option String → Option String
  | some code => if code == "" then none else some code
  | none => none

/-- The source text `update` (lines 303-316) decides to process: the active
editor's text when the panel is visible and the active editor holds this
panel's PRQL document, otherwise the truthy `prqlCode` argument, otherwise
nothing. -/
def updateSourceText (docUri : Uri) (activeEditor : Option Editor) (p : PanelState)
    (prqlCode : Option String) : Option String :=
  match activeEditor with
  | some editor =>
    if p.visible && editor.languageId == "prql" && editor.fsPath == docUri.fsPath then
      some editor.text
    else truthyPrqlCode prqlCode
  | none => truthyPrqlCode prqlCode

/-- The trailing step of `update` (lines 318-320):
`if (!visible || !active) clearSqlPreviewContext()`. -/
def updateSyncClear (p : PanelState) : List Effect :=
  if !p.visible || !p.active then clearSqlPreviewContext else []

/-- `update` (lines 303-321). Returns the new `_lastSqlHtml` value and the
host effect trace of the whole cycle. The trailing
`if (!visible || !active) clearSqlPreviewContext()` runs synchronously, so
its effects land between the synchronous compiler invocation and the `.then`
continuation of `processPrql`. -/
def update (env : Env) (docUri : Uri) (activeEditor : Option Editor)
    (p : PanelState) (prqlCode : Option String) :
    Option (Option String × List Effect) :=
  match updateSourceText docUri activeEditor p prqlCode with
  | none => some (p.lastSqlHtml, updateSyncClear p)
  | some src =>
    match processPrql env docUri p.lastSqlHtml src with
    | none => none
    | some (lh, pre, cont) => some (lh, pre ++ (updateSyncClear p ++ cont))

/-- The `onDidChangeActiveTextEditor` handler (lines 177-190): when the new
active editor holds this panel's document (compared by `fsPath`), it first
resets `_lastSqlHtml` to `undefined`, then runs `clearSqlPreviewContext`
followed by `update`. Otherwise nothing happens. -/
def onDidChangeActiveTextEditor (env : Env) (docUri : Uri) (p : PanelState)
    (editor : Option Editor) : Option (Option String × List Effect) :=
  match editor with
  | some ed =>
    if ed.fsPath == docUri.fsPath then
      match update env docUri (some ed) { p with lastSqlHtml := none } none with
      | some pair => some (pair.1, clearSqlPreviewContext ++ pair.2)
      | none => none
    else some (p.lastSqlHtml, [])
  | none => some (p.lastSqlHtml, [])

/-- `toLowerCase()` on the configured theme name (ASCII case mapping, which
covers the bundled theme identifiers the source compares against). -/
def toLowerString (s : String) : String :=
  String.mk (s.data.map Char.toLower)

/-- Whether `pat` is a prefix of the character list. -/
def isPrefixChars : List Char → List Char → Bool
  | [], _ => true
  | _ :: _, [] => false
  | p :: ps, c :: cs => p == c && isPrefixChars ps cs

/-- JavaScript `String.prototype.replace` with a string pattern replaces only
the first (leftmost) occurrence; this is that operation on character lists. -/
def replaceFirstAux (pat repl : List Char) : List Char → List Char
  | [] => []
  | c :: cs =>
    if isPrefixChars pat (c :: cs) then repl ++ (c :: cs).drop pat.length
    else c :: replaceFirstAux pat repl cs

/-- `s.replace(pat, repl)` with a string pattern: first occurrence only. -/
def replaceFirst (s pat repl : String) : String :=
  String.mk (replaceFirstAux pat.data repl.data s.data)

/-- `s.replace(/pat/g, repl)`: every non-overlapping occurrence, left to
right (the source only uses this with the non-empty pattern `##CSP_SOURCE##`). -/
def replaceAllAux (pat repl : List Char) : List Char → List Char
  | [] => []
  | c :: cs =>
    if pat.isEmpty then c :: cs
    else if isPrefixChars pat (c :: cs) then
      repl ++ replaceAllAux pat repl (cs.drop (pat.length - 1))
    else c :: replaceAllAux pat repl cs
termination_by l => l.length
decreasing_by
  all_goals simp [List.length_drop]
  all_goals omega

/-- Global replacement, standing for `.replace(/##CSP_SOURCE##/g, ...)`. -/
def replaceAll (s pat repl : String) : String :=
  String.mk (replaceAllAux pat.data repl.data s.data)

/-- `.replace(/\s+/g, '-')`: each maximal run of whitespace becomes one
hyphen (the flag records whether the previous character was whitespace). -/
def collapseWsAux : Bool → List Char → List Char
  | _, [] => []
  | prevWs, c :: cs =>
    if c.isWhitespace then
      (if prevWs then [] else ['-']) ++ collapseWsAux true cs
    else
      c :: collapseWsAux false cs

/-- Whitespace runs collapsed to single hyphens. -/
def collapseWhitespaceToHyphens (s : String) : String :=
  String.mk (collapseWsAux false s.data)

/-- The normalisation applied at line 426:
`colorTheme.toLowerCase().replace('theme', '').replace(/\s+/g, '-')`. -/
def normalizeThemeName (colorTheme : String) : String :=
  collapseWhitespaceToHyphens (replaceFirst (toLowerString colorTheme) "theme" "")

/-- The `themeName` getter (lines 416-435), with the highlighter library's
`shiki.BUNDLED_THEMES` supplied as a parameter: return the configured name
if bundled, else its normalised form if bundled, else `'css-variables'`. -/
def themeName (bundledThemes : List String) (colorTheme : String) : String :=
  if bundledThemes.contains colorTheme then
    colorTheme
  else
    let normalized := normalizeThemeName colorTheme
    if bundledThemes.contains normalized then normalized
    else "css-variables"

/-- `getHtmlTemplate` (lines 472-483) with the result of the `readFileSync`
call supplied as a parameter (`none` models the exception thrown when the
template asset is missing): substitute the CSP source globally and the
script/stylesheet URIs once each. -/
def getHtmlTemplate (template : Option String) (cspSource jsUri cssUri : String) :
    Option String :=
  template.map fun t =>
    replaceFirst (replaceFirst (replaceAll t "##CSP_SOURCE##" cspSource) "##JS_URI##" jsUri)
      "##CSS_URI##" cssUri

/-- The single-slot debounce timer (lines 212-220): the state is the pending
deadline, if any. A trigger at time `t` first cancels the pending timer —
provided it has not already fired, i.e. its deadline `d` satisfies `t < d` —
and then arms a fresh timer for `t + delay`; a deadline with `d ≤ t` has
already fired and contributes one invocation of the debounced function.
After the last trigger the remaining timer fires at its deadline. The result
is the list of firing times. -/
def debounceRun (delay : Nat) : Option Nat → List Nat → List Nat
  | none, [] => []
  | some d, [] => [d]
  | none, t :: ts => debounceRun delay (some (t + delay)) ts
  | some d, t :: ts =>
    if d ≤ t then d :: debounceRun delay (some (t + delay)) ts
    else debounceRun delay (some (t + delay)) ts

/-- Firing times of the debounced function for a list of trigger times,
starting with no pending timer. -/
def debounceFires (delay : Nat) (triggers : List Nat) : List Nat :=
  debounceRun delay none triggers

/-- A tracked panel instance: its identity (for reference comparison), the
document it mirrors, and the subscriptions collected in `_disposables`. -/
structure Panel where
  id : Nat
  documentUri : Uri
  disposables : List Nat
deriving DecidableEq

/-- The process-wide state of the class: `SqlPreview._views` as an
association list keyed by `viewKey`, a counter supplying fresh instance
identities, `SqlPreview.currentView`, the two context flags, the mirrored
`'prql.sql'` workspace value, the ids of panels revealed so far, and the
subscription handles released so far. -/
structure RegistryState where
  views : List (String × Panel)
  nextId : Nat
  currentView : Option Nat
  sqlPreviewActive : Bool
  lastActiveDocUri : Option Uri
  workspaceSql : Option String
  revealed : List Nat
  disposedSubs : List Nat
deriving DecidableEq

/-- `SqlPreview._views.get(key)`. -/
def lookupView : List (String × Panel) → String → Option Panel
  | [], _ => none
  | (k, p) :: rest, key => if k = key then some p else lookupView rest key

/-- `SqlPreview._views.delete(key)` (under unique keys this removes the one
entry stored for `key`). -/
def removeView : List (String × Panel) → String → List (String × Panel)
  | [], _ => []
  | (k, p) :: rest, key =>
    if k = key then removeView rest key else (k, p) :: removeView rest key

/-- Number of registry entries stored under `key`. -/
def countKey : List (String × Panel) → String → Nat
  | [], _ => 0
  | (k, _) :: rest, key => (if k = key then 1 else 0) + countKey rest key

/-- Well-formedness of the registry: every tracked instance was allocated
below the fresh-id counter, and (as a `Map` guarantees) keys are unique. -/
def RegInv (s : RegistryState) : Prop :=
  (∀ kp ∈ s.views, kp.2.id < s.nextId) ∧ (s.views.map Prod.fst).Nodup

/-- `SqlPreview.render` (lines 58-90): look up the derived view key; if a
preview is already tracked, `reveal()` it (which runs
`resetSqlPreviewContext`) and make it current; otherwise construct a new
instance, which registers itself under the key, and make it current. In both
branches the two context values are then set for the requested document. -/
def render (s : RegistryState) (documentUri : Uri) (newSubs : List Nat) : RegistryState :=
  let key := viewKey documentUri
  let s1 :=
    match lookupView s.views key with
    | some panel =>
      { s with revealed := s.revealed ++ [panel.id],
               sqlPreviewActive := true,
               lastActiveDocUri := some panel.documentUri,
               currentView := some panel.id }
    | none =>
      let panel : Panel := { id := s.nextId, documentUri := documentUri,
                             disposables := newSubs }
      { s with views := s.views ++ [(key, panel)],
               nextId := s.nextId + 1,
               currentView := some panel.id }
  { s1 with sqlPreviewActive := true, lastActiveDocUri := some documentUri }

/-- `dispose` (lines 225-230): drop `currentView`, delete the registry entry
under this panel's view key, dispose every collected subscription, and run
`clearSqlPreviewContext` (preview-active flag to false, mirrored SQL to
absent; the last-active-document value is not touched). -/
def dispose (s : RegistryState) (panel : Panel) : RegistryState :=
  { s with currentView := none,
           views := removeView s.views (viewKey panel.documentUri),
           disposedSubs := s.disposedSubs ++ panel.disposables,
           sqlPreviewActive := false,
           workspaceSql := none }

/-- The `onDidChangeViewState` handler (lines 147-161): when the panel is
active, set both context values for its document and make it current; when
it is not, set the preview-active flag to false and drop `currentView`
(nothing else changes — in particular the panel is not disposed and the
last-active-document value keeps recording the last active document). -/
def onDidChangeViewState (s : RegistryState) (panel : Panel) (active : Bool) :
    RegistryState :=
  if active then
    { s with sqlPreviewActive := true,
             lastActiveDocUri := some panel.documentUri,
             currentView := some panel.id }
  else
    { s with sqlPreviewActive := false, currentView := none }

/-- The private constructor (lines 134-203) together with the synchronous
prefix of `configure` (lines 250-252). `configure` is an `async` method
invoked without `await`; `getHtmlTemplate` calls `readFileSync`, and an
exception from it inside the `async` body only rejects the returned promise,
which no caller observes. The constructor therefore continues regardless and
adds the instance to `SqlPreview._views` (line 144). The source contains no
call to any host notification API, so the third component (whether a
host-level notification was surfaced) is constantly `false`; the second
component records whether the template load failed. -/
def construct (s : RegistryState) (documentUri : Uri) (template : Option String)
    (cspSource jsUri cssUri : String) (newSubs : List Nat) :
    RegistryState × Bool × Bool :=
  let html := getHtmlTemplate template cspSource jsUri cssUri
  let panel : Panel := { id := s.nextId, documentUri := documentUri,
                         disposables := newSubs }
  ({ s with views := s.views ++ [(viewKey documentUri, panel)],
            nextId := s.nextId + 1 },
   html.isNone, false)

/-- Concrete document Uri used by the evaluation fixtures. -/
def docUri1 : Uri := { scheme := "file", fsPath := "/queries/employees.prql" }

/-- Fixture environment whose compiler always succeeds. -/
def env1 : Env :=
  { compile := fun src => Sum.inl ("SELECT name FROM " ++ src),
    codeToHtml := fun sql => "<pre>" ++ sql ++ "</pre>" }

/-- Fixture environment whose compiler always reports one diagnostic that
has no `display` field. -/
def env2 : Env :=
  { compile := fun _ => Sum.inr [{ display := none, reason := "unexpected token" }],
    codeToHtml := fun sql => "<pre>" ++ sql ++ "</pre>" }

/-- Fixture host state. -/
def host0 : HostState :=
  { sqlPreviewActive := false, lastActiveDocUri := none,
    workspaceState := fun _ => none, posted := [] }

/-- Fixture editor holding the panel's document. -/
def ed2 : Editor :=
  { languageId := "prql", fsPath := "/queries/employees.prql", text := "from x|" }

/-- Fixture panel state with a previous good render, visible and active. -/
def p2 : PanelState :=
  { lastSqlHtml := some "<pre>old</pre>", visible := true, active := true }

/-- Fixture panel state with a previous good render, hidden and inactive. -/
def pHidden : PanelState :=
  { lastSqlHtml := some "<pre>old</pre>", visible := false, active := false }

/-- Fixture empty registry. -/
def s0 : RegistryState :=
  { views := [], nextId := 0, currentView := none, sqlPreviewActive := false,
    lastActiveDocUri := none, workspaceSql := none, revealed := [],
    disposedSubs := [] }

/-- Fixture panel instance tracked in `sW`. -/
def panelW : Panel := { id := 0, documentUri := docUri1, disposables := [100, 101] }

/-- Fixture registry tracking `panelW` as the current view. -/
def sW : RegistryState :=
  { views := [(viewKey docUri1, panelW)], nextId := 1, currentView := some 0,
    sqlPreviewActive := true, lastActiveDocUri := some docUri1,
    workspaceSql := some "SELECT 1", revealed := [], disposedSubs := [] }

end SqlPreview

namespace SqlPreview

theorem lookupView_mem {l : List (String × Panel)} {key : String} {p : Panel}
    (h : lookupView l key = some p) : (key, p) ∈ l := by
  induction l with
  | nil => simp [lookupView] at h
  | cons kv rest ih =>
    obtain ⟨k, q⟩ := kv
    by_cases hk : k = key
    · subst hk
      simp [lookupView] at h
      subst h
      exact List.mem_cons_self _ _
    · simp [lookupView, hk] at h
      exact List.mem_cons_of_mem _ (ih h)

theorem lookupView_none_not_mem {l : List (String × Panel)} {key : String}
    (h : lookupView l key = none) : key ∉ l.map Prod.fst := by
  induction l with
  | nil => simp
  | cons kv rest ih =>
    obtain ⟨k, q⟩ := kv
    by_cases hk : k = key
    · subst hk; simp [lookupView] at h
    · simp [lookupView, hk] at h
      simp [hk, ih h]
      exact fun hkey => (hk hkey.symm).elim

theorem lookupView_append_right {l1 : List (String × Panel)} (l2 : List (String × Panel))
    {key : String} (h : lookupView l1 key = none) :
    lookupView (l1 ++ l2) key = lookupView l2 key := by
  induction l1 with
  | nil => rfl
  | cons kv rest ih =>
    obtain ⟨k, q⟩ := kv
    by_cases hk : k = key
    · subst hk; simp [lookupView] at h
    · simp [lookupView, hk] at h ⊢
      exact ih h

theorem countKey_append (l1 l2 : List (String × Panel)) (key : String) :
    countKey (l1 ++ l2) key = countKey l1 key + countKey l2 key := by
  induction l1 with
  | nil => simp [countKey]
  | cons kv rest ih =>
    obtain ⟨k, q⟩ := kv
    simp [countKey, ih]
    omega

theorem countKey_pos_of_lookup {l : List (String × Panel)} {key : String} {p : Panel}
    (h : lookupView l key = some p) : 1 ≤ countKey l key := by
  induction l with
  | nil => simp [lookupView] at h
  | cons kv rest ih =>
    obtain ⟨k, q⟩ := kv
    by_cases hk : k = key
    · simp [countKey, hk]
    · simp [lookupView, hk] at h
      simp [countKey, hk]
      exact ih h

theorem countKey_eq_zero_of_not_mem {l : List (String × Panel)} {key : String}
    (h : key ∉ l.map Prod.fst) : countKey l key = 0 := by
  induction l with
  | nil => rfl
  | cons kv rest ih =>
    obtain ⟨k, q⟩ := kv
    simp at h
    have hk : ¬ (k = key) := fun he => h.1 he.symm
    simp [countKey, hk]
    exact ih (by simpa using h.2)

theorem countKey_le_one_of_nodup {l : List (String × Panel)} {key : String}
    (h : (l.map Prod.fst).Nodup) : countKey l key ≤ 1 := by
  induction l with
  | nil => simp [countKey]
  | cons kv rest ih =>
    obtain ⟨k, q⟩ := kv
    simp [List.nodup_cons] at h
    by_cases hk : k = key
    · subst hk
      have : countKey rest k = 0 :=
        countKey_eq_zero_of_not_mem (by simpa using h.1)
      simp [countKey, this]
    · simp [countKey, hk]
      exact ih h.2

theorem removeView_lookup (l : List (String × Panel)) (key : String) :
    lookupView (removeView l key) key = none := by
  induction l with
  | nil => rfl
  | cons kv rest ih =>
    obtain ⟨k, q⟩ := kv
    by_cases hk : k = key
    · simp [removeView, hk, ih]
    · simp [removeView, hk, lookupView, ih]

theorem removeView_sublist (l : List (String × Panel)) (key : String) :
    List.Sublist (removeView l key) l := by
  induction l with
  | nil => exact List.Sublist.refl _
  | cons kv rest ih =>
    obtain ⟨k, q⟩ := kv
    by_cases hk : k = key
    · simp [removeView, hk]
      exact ih.cons _
    · simp [removeView, hk]
      exact ih

theorem render_found (s : RegistryState) (D : Uri) (subs : List Nat) (panel : Panel)
    (h : lookupView s.views (viewKey D) = some panel) :
    render s D subs = { s with revealed := s.revealed ++ [panel.id],
                               sqlPreviewActive := true,
                               lastActiveDocUri := some D,
                               currentView := some panel.id } := by
  unfold render
  simp [h]

theorem render_new (s : RegistryState) (D : Uri) (subs : List Nat)
    (h : lookupView s.views (viewKey D) = none) :
    render s D subs = { s with
      views := s.views ++ [(viewKey D, ⟨s.nextId, D, subs⟩)],
      nextId := s.nextId + 1,
      currentView := some s.nextId,
      sqlPreviewActive := true,
      lastActiveDocUri := some D } := by
  unfold render
  simp [h]

theorem render_preserves_inv (s : RegistryState) (D : Uri) (subs : List Nat)
    (hinv : RegInv s) : RegInv (render s D subs) := by
  obtain ⟨hid, hnd⟩ := hinv
  cases hl : lookupView s.views (viewKey D) with
  | some panel =>
    rw [render_found s D subs panel hl]
    exact ⟨hid, hnd⟩
  | none =>
    rw [render_new s D subs hl]
    constructor
    · intro kp hmem
      rcases List.mem_append.mp hmem with h | h
      · exact Nat.lt_succ_of_lt (hid kp h)
      · simp at h
        rw [h]
        exact Nat.lt_succ_self _
    · rw [List.map_append, List.nodup_append]
      refine ⟨hnd, List.nodup_singleton _, ?_⟩
      intro x hx hx'
      simp at hx'
      rw [hx'] at hx
      exact lookupView_none_not_mem hl hx

theorem render_lookup_some (s : RegistryState) (D : Uri) (subs : List Nat) :
    ∃ panel, lookupView (render s D subs).views (viewKey D) = some panel := by
  cases hl : lookupView s.views (viewKey D) with
  | some panel =>
    refine ⟨panel, ?_⟩
    rw [render_found s D subs panel hl]
    exact hl
  | none =>
    refine ⟨⟨s.nextId, D, subs⟩, ?_⟩
    rw [render_new s D subs hl]
    show lookupView (s.views ++ [(viewKey D, ⟨s.nextId, D, subs⟩)]) (viewKey D) = _
    rw [lookupView_append_right _ hl]
    simp [lookupView]

/-- C3: requesting a preview twice in a row for the same document D yields
exactly one registry entry under D's derived view key; the second call finds
the tracked panel and reveals it instead of constructing a new instance (no
fresh identity is allocated and the registry is unchanged), and the
at-most-one-panel-per-key invariant is preserved. -/
theorem render_twice_single_panel (s : RegistryState) (D : Uri)
    (subs1 subs2 : List Nat) (hinv : RegInv s) :
    countKey (render (render s D subs1) D subs2).views (viewKey D) = 1
    ∧ (render (render s D subs1) D subs2).nextId = (render s D subs1).nextId
    ∧ (render (render s D subs1) D subs2).views = (render s D subs1).views
    ∧ (∃ panel, lookupView (render s D subs1).views (viewKey D) = some panel
        ∧ (render (render s D subs1) D subs2).revealed
            = (render s D subs1).revealed ++ [panel.id])
    ∧ RegInv (render (render s D subs1) D subs2) := by
  have hinv1 := render_preserves_inv s D subs1 hinv
  obtain ⟨panel, hpan⟩ := render_lookup_some s D subs1
  have hs2 := render_found (render s D subs1) D subs2 panel hpan
  have hcount1 : countKey (render s D subs1).views (viewKey D) = 1 :=
    le_antisymm (countKey_le_one_of_nodup hinv1.2) (countKey_pos_of_lookup hpan)
  refine ⟨?_, ?_, ?_, ⟨panel, hpan, ?_⟩, ?_⟩
  · rw [hs2]
    exact hcount1
  · rw [hs2]
  · rw [hs2]
  · rw [hs2]
  · exact render_preserves_inv (render s D subs1) D subs2 hinv1

/-- C3 witness: starting from the empty registry, two preview requests for
the same document leave exactly one entry under its view key. -/
theorem render_twice_single_panel_witness :
    countKey (render (render s0 docUri1 [1, 2]) docUri1 [3, 4]).views
      (viewKey docUri1) = 1 :=
  (render_twice_single_panel s0 docUri1 [1, 2] [3, 4]
    ⟨by decide, by decide⟩).1

/-- C4: disposing a tracked panel that is the current view removes its
registry entry, releases every collected subscription, clears the
preview-active flag and the mirrored SQL, drops the current view (the
last-active-document value, which records the last active document, keeps
its value), and a subsequent render request for the same document constructs
a fresh instance whose identity differs from the disposed one. -/
theorem dispose_removes_and_fresh_panel (s : RegistryState) (panel : Panel)
    (newSubs : List Nat) (hinv : RegInv s)
    (hmem : lookupView s.views (viewKey panel.documentUri) = some panel)
    (hactive : s.currentView = some panel.id) :
    lookupView (dispose s panel).views (viewKey panel.documentUri) = none
    ∧ (∀ d ∈ panel.disposables, d ∈ (dispose s panel).disposedSubs)
    ∧ (dispose s panel).sqlPreviewActive = false
    ∧ (dispose s panel).workspaceSql = none
    ∧ (dispose s panel).currentView = none
    ∧ (dispose s panel).lastActiveDocUri = s.lastActiveDocUri
    ∧ (∃ fresh,
        lookupView (render (dispose s panel) panel.documentUri newSubs).views
            (viewKey panel.documentUri) = some fresh
        ∧ fresh.id ≠ panel.id
        ∧ (render (dispose s panel) panel.documentUri newSubs).nextId
            = s.nextId + 1) := by
  have hidlt : panel.id < s.nextId := hinv.1 _ (lookupView_mem hmem)
  have hgone : lookupView (dispose s panel).views (viewKey panel.documentUri) = none := by
    show lookupView (removeView s.views (viewKey panel.documentUri)) _ = none
    exact removeView_lookup _ _
  refine ⟨hgone, ?_, rfl, rfl, rfl, rfl, ?_⟩
  · intro d hd
    show d ∈ s.disposedSubs ++ panel.disposables
    exact List.mem_append.mpr (Or.inr hd)
  · refine ⟨⟨(dispose s panel).nextId, panel.documentUri, newSubs⟩, ?_, ?_, ?_⟩
    · rw [render_new (dispose s panel) panel.documentUri newSubs hgone]
      show lookupView ((dispose s panel).views
            ++ [(viewKey panel.documentUri, _)]) _ = _
      rw [lookupView_append_right _ hgone]
      simp [lookupView]
    · show (dispose s panel).nextId ≠ panel.id
      show s.nextId ≠ panel.id
      omega
    · rw [render_new (dispose s panel) panel.documentUri newSubs hgone]; rfl

/-- C4 witness: disposing the tracked fixture panel removes its entry. -/
theorem dispose_removes_and_fresh_panel_witness :
    lookupView (dispose sW panelW).views (viewKey panelW.documentUri) = none :=
  (dispose_removes_and_fresh_panel sW panelW [5]
    ⟨by decide, by decide⟩ (by decide) (by decide)).1

/-- C7: on a view-state change in which the panel is active, both context
values are set for this panel's document and it becomes the current view; on
a change in which it is not active, the preview-active flag is cleared and
the current view dropped, while everything else — the registry, the
subscriptions, and the last-active-document value — is untouched; in
particular the panel is not disposed. -/
theorem viewState_transitions (s : RegistryState) (panel : Panel) :
    onDidChangeViewState s panel true
      = { s with sqlPreviewActive := true,
                 lastActiveDocUri := some panel.documentUri,
                 currentView := some panel.id }
    ∧ onDidChangeViewState s panel false
      = { s with sqlPreviewActive := false, currentView := none } :=
  ⟨rfl, rfl⟩

/-- C6: with the template asset missing (the `readFileSync` result absent),
panel construction still completes: the instance is registered in the
registry, the failed template load only rejects the un-awaited `configure`
promise, and no host-level notification is surfaced. -/
theorem construct_survives_template_failure :
    ((construct s0 docUri1 none "csp" "js" "css" [7]).2.1 = true)
    ∧ ((lookupView (construct s0 docUri1 none "csp" "js" "css" [7]).1.views
        (viewKey docUri1)).isSome = true)
    ∧ ((construct s0 docUri1 none "csp" "js" "css" [7]).2.2 = false) := by
  refine ⟨rfl, ?_, rfl⟩
  decide

/-- C5: theme resolution returns the first candidate among (a) the configured
name, (b) its normalised form (lowercased, first occurrence of the literal
"theme" removed, whitespace runs collapsed to hyphens), and (c) the fixed
fallback "css-variables", that the highlighter lists as bundled — with
"css-variables" also the result when none of them is bundled — and
normalising "Dark (Visual Studio)" yields "dark-(visual-studio)". -/
theorem themeName_resolution (bundledThemes : List String) (colorTheme : String) :
    themeName bundledThemes colorTheme
      = (List.find? (fun c => bundledThemes.contains c)
          [colorTheme, normalizeThemeName colorTheme, "css-variables"]).getD
          "css-variables"
    ∧ normalizeThemeName "Dark (Visual Studio)" = "dark-(visual-studio)" := by
  constructor
  · unfold themeName
    by_cases h1 : colorTheme ∈ bundledThemes
    · simp [List.find?, h1]
    · by_cases h2 : normalizeThemeName colorTheme ∈ bundledThemes
      · simp [List.find?, h1, h2]
      · by_cases h3 : "css-variables" ∈ bundledThemes
        · simp [List.find?, h1, h2, h3]
        · simp [List.find?, h1, h2, h3]
  · decide

theorem debounceRun_chain (ts : List Nat) (a : Nat)
    (h : List.Chain (fun x y => x ≤ y ∧ y < x + 10) a ts) :
    debounceRun 10 (some (a + 10)) ts = [ts.getLastD a + 10] := by
  induction ts generalizing a with
  | nil => rfl
  | cons b ts ih =>
    cases h with
    | cons hr hc =>
      have hnot : ¬ (a + 10 ≤ b) := by omega
      simp only [debounceRun, if_neg hnot]
      rw [ih b hc, List.getLastD_cons]

/-- C8: a burst of triggers in which every next trigger arrives before the
pending 10ms timer's deadline produces exactly one firing of the debounced
function, at 10ms past the last trigger, and the fired render cycle reads
the document text present at that moment (the end of the window). -/
theorem debounce_coalesces_to_single_fire (t0 : Nat) (ts : List Nat)
    (text : Nat → String)
    (hchain : List.Chain (fun x y => x ≤ y ∧ y < x + 10) t0 ts) :
    debounceFires 10 (t0 :: ts) = [ts.getLastD t0 + 10]
    ∧ (debounceFires 10 (t0 :: ts)).length = 1
    ∧ (debounceFires 10 (t0 :: ts)).map text = [text (ts.getLastD t0 + 10)] := by
  have h0 : debounceFires 10 (t0 :: ts) = debounceRun 10 (some (t0 + 10)) ts := rfl
  have h1 : debounceFires 10 (t0 :: ts) = [ts.getLastD t0 + 10] := by
    rw [h0, debounceRun_chain ts t0 hchain]
  exact ⟨h1, by rw [h1]; rfl, by rw [h1]; rfl⟩

/-- C8 witness: three triggers at 0, 3 and 5 (each within 10 of the previous)
fire exactly once, at 15. -/
theorem debounce_coalesces_witness :
    debounceFires 10 [0, 3, 5] = [15] :=
  (debounce_coalesces_to_single_fire 0 [3, 5] (fun _ => "from e")
    (List.Chain.cons ⟨by omega, by omega⟩
      (List.Chain.cons ⟨by omega, by omega⟩ List.Chain.nil))).1

/-- C1: when the compiler succeeds on a source text, one render cycle
(`processPrql`/`compilePrql`) sets the panel's last-good HTML to the
highlighter's HTML for the compiled SQL, posts an update message whose
result is the ok result carrying exactly that SQL and HTML, and writes the
raw SQL string to workspace state under the fixed key `prql.sql`. -/
theorem processPrql_ok_updates_lastGood_and_state (env : Env) (docUri : Uri)
    (lastSqlHtml : Option String) (src sql : String) (h : HostState)
    (hc : env.compile src = Sum.inl sql) :
    ∃ pre cont,
      processPrql env docUri lastSqlHtml src
        = some (some (env.codeToHtml sql), pre, cont)
      ∧ Effect.post (WebviewMessage.update
          (CompilationResult.ok (env.codeToHtml sql) sql)) ∈ cont
      ∧ (CompilationResult.ok (env.codeToHtml sql) sql).status = "ok"
      ∧ (applyEffects h (pre ++ cont)).workspaceState "prql.sql" = some sql
      ∧ (applyEffects h (pre ++ cont)).posted
          = h.posted ++ [WebviewMessage.update
              (CompilationResult.ok (env.codeToHtml sql) sql)] := by
  refine ⟨[Effect.compileRun src],
    [Effect.post (WebviewMessage.update
        (CompilationResult.ok (env.codeToHtml sql) sql))]
      ++ resetSqlPreviewContext docUri
      ++ [Effect.setWorkspaceState "prql.sql" (some sql)], ?_, ?_, rfl, ?_, ?_⟩
  · simp [processPrql, compilePrql, hc, newLastSqlHtml, CompilationResult.sqlField]
  · simp
  · simp [applyEffects, applyEffect, resetSqlPreviewContext]
  · simp [applyEffects, applyEffect, resetSqlPreviewContext]

/-- C1 witness: the fixture compiler output is mirrored exactly. -/
theorem processPrql_ok_witness :
    ∃ pre cont,
      processPrql env1 docUri1 none "employees"
        = some (some (env1.codeToHtml "SELECT name FROM employees"), pre, cont)
      ∧ Effect.post (WebviewMessage.update
          (CompilationResult.ok (env1.codeToHtml "SELECT name FROM employees")
            "SELECT name FROM employees")) ∈ cont
      ∧ (CompilationResult.ok (env1.codeToHtml "SELECT name FROM employees")
          "SELECT name FROM employees").status = "ok"
      ∧ (applyEffects host0 (pre ++ cont)).workspaceState "prql.sql"
          = some "SELECT name FROM employees"
      ∧ (applyEffects host0 (pre ++ cont)).posted
          = host0.posted ++ [WebviewMessage.update
              (CompilationResult.ok (env1.codeToHtml "SELECT name FROM employees")
                "SELECT name FROM employees")] :=
  processPrql_ok_updates_lastGood_and_state env1 docUri1 none "employees"
    "SELECT name FROM employees" host0 (by decide)

/-- C2: when the compiler returns diagnostics, the render cycle leaves the
panel's last-good HTML unchanged, erases the mirrored SQL under the fixed
key `prql.sql` (the error result has no `sql` field), and posts an error
result whose message is the first diagnostic's display text — falling back
to its reason when display is absent — and whose last-good-HTML field equals
the pre-existing last-good value. -/
theorem processPrql_error_preserves_lastGood (env : Env) (docUri : Uri)
    (lastSqlHtml : Option String) (src : String) (d : Diagnostic)
    (rest : List Diagnostic) (h : HostState)
    (hc : env.compile src = Sum.inr (d :: rest)) :
    ∃ pre cont,
      processPrql env docUri lastSqlHtml src = some (lastSqlHtml, pre, cont)
      ∧ Effect.post (WebviewMessage.update
          (CompilationResult.error (d.display.getD d.reason) lastSqlHtml)) ∈ cont
      ∧ (applyEffects h (pre ++ cont)).workspaceState "prql.sql" = none
      ∧ (applyEffects h (pre ++ cont)).posted
          = h.posted ++ [WebviewMessage.update
              (CompilationResult.error (d.display.getD d.reason) lastSqlHtml)] := by
  refine ⟨[Effect.compileRun src],
    [Effect.post (WebviewMessage.update
        (CompilationResult.error (d.display.getD d.reason) lastSqlHtml))]
      ++ resetSqlPreviewContext docUri
      ++ [Effect.setWorkspaceState "prql.sql" none], ?_, ?_, ?_, ?_⟩
  · simp [processPrql, compilePrql, hc, newLastSqlHtml, CompilationResult.sqlField]
  · simp
  · simp [applyEffects, applyEffect, resetSqlPreviewContext]
  · simp [applyEffects, applyEffect, resetSqlPreviewContext]

/-- C2 witness: a diagnostic without display text is surfaced through its
reason, and the previous good HTML is kept. -/
theorem processPrql_error_witness :
    ∃ pre cont,
      processPrql env2 docUri1 (some "<pre>old</pre>") "from x|"
        = some (some "<pre>old</pre>", pre, cont)
      ∧ Effect.post (WebviewMessage.update
          (CompilationResult.error "unexpected token" (some "<pre>old</pre>"))) ∈ cont
      ∧ (applyEffects host0 (pre ++ cont)).workspaceState "prql.sql" = none
      ∧ (applyEffects host0 (pre ++ cont)).posted
          = host0.posted ++ [WebviewMessage.update
              (CompilationResult.error "unexpected token" (some "<pre>old</pre>"))] :=
  processPrql_error_preserves_lastGood env2 docUri1 (some "<pre>old</pre>")
    "from x|" { display := none, reason := "unexpected token" } [] host0 (by decide)

/-- C9: when the active editor switches to the panel's mirrored document,
the handler resets the cached last-good HTML to absent before the recompute
runs, so a failing compile in that cycle posts an error result whose
last-good-HTML field is absent, even when the panel held a previous good
render. -/
theorem editorChange_resets_lastGoodHtml (env : Env) (docUri : Uri) (p : PanelState)
    (ed : Editor) (d : Diagnostic) (rest : List Diagnostic)
    (hfs : ed.fsPath = docUri.fsPath) (hvis : p.visible = true)
    (hlang : ed.languageId = "prql")
    (hc : env.compile ed.text = Sum.inr (d :: rest)) :
    ∃ effs,
      onDidChangeActiveTextEditor env docUri p (some ed) = some (none, effs)
      ∧ Effect.post (WebviewMessage.update
          (CompilationResult.error (d.display.getD d.reason) none)) ∈ effs := by
  have hsrc : updateSourceText docUri (some ed) { p with lastSqlHtml := none } none
      = some ed.text := by
    simp [updateSourceText, hvis, hlang, hfs]
  have hproc : processPrql env docUri none ed.text
      = some (none, [Effect.compileRun ed.text],
          [Effect.post (WebviewMessage.update
              (CompilationResult.error (d.display.getD d.reason) none))]
            ++ resetSqlPreviewContext docUri
            ++ [Effect.setWorkspaceState "prql.sql" none]) := by
    simp [processPrql, compilePrql, hc, newLastSqlHtml, CompilationResult.sqlField]
  refine ⟨clearSqlPreviewContext
      ++ ([Effect.compileRun ed.text]
        ++ (updateSyncClear { p with lastSqlHtml := none }
          ++ ([Effect.post (WebviewMessage.update
                (CompilationResult.error (d.display.getD d.reason) none))]
            ++ resetSqlPreviewContext docUri
            ++ [Effect.setWorkspaceState "prql.sql" none]))), ?_, ?_⟩
  · simp [onDidChangeActiveTextEditor, hfs, update, hsrc, hproc]
  · simp

/-- C9 witness: the fixture panel holds a previous good render, the editor
switches to its document, the compile fails, and the posted error result
carries an absent last-good-HTML field. -/
theorem editorChange_resets_witness :
    ∃ effs,
      onDidChangeActiveTextEditor env2 docUri1 p2 (some ed2) = some (none, effs)
      ∧ Effect.post (WebviewMessage.update
          (CompilationResult.error "unexpected token" none)) ∈ effs :=
  editorChange_resets_lastGoodHtml env2 docUri1 p2 ed2
    { display := none, reason := "unexpected token" } [] rfl rfl rfl (by decide)

/-- C10: whenever an update cycle runs while the panel is not visible or not
active, its effect trace contains the `clearSqlPreviewContext` writes — the
preview-active flag set false and the mirrored workspace SQL under the fixed
key `prql.sql` set absent; in particular a cycle reaching a hidden panel
with no code override performs no compile at all, its trace is exactly the
clear, and applying it leaves the mirrored SQL absent and the flag false. -/
theorem update_hidden_clears_mirrored_state (env : Env) (docUri : Uri)
    (activeEditor : Option Editor) (p : PanelState) (prqlCode : Option String)
    (h : HostState) (hvis : p.visible = false ∨ p.active = false) :
    (∀ lh effs, update env docUri activeEditor p prqlCode = some (lh, effs) →
        Effect.setContextActive false ∈ effs
        ∧ Effect.setWorkspaceState "prql.sql" none ∈ effs)
    ∧ (p.visible = false →
        update env docUri activeEditor p none
          = some (p.lastSqlHtml, clearSqlPreviewContext)
        ∧ (∀ src, Effect.compileRun src ∉ clearSqlPreviewContext)
        ∧ (applyEffects h clearSqlPreviewContext).workspaceState "prql.sql" = none
        ∧ (applyEffects h clearSqlPreviewContext).sqlPreviewActive = false) := by
  have hsync : updateSyncClear p = clearSqlPreviewContext := by
    rcases hvis with h1 | h1 <;> simp [updateSyncClear, h1]
  constructor
  · intro lh effs heq
    cases hsrc : updateSourceText docUri activeEditor p prqlCode with
    | none =>
      rw [update, hsrc] at heq
      simp [hsync] at heq
      rw [← heq.2]
      constructor <;> simp [clearSqlPreviewContext]
    | some src =>
      cases hproc : processPrql env docUri p.lastSqlHtml src with
      | none =>
        simp [update, hsrc, hproc] at heq
      | some trip =>
        obtain ⟨lh0, pre, cont⟩ := trip
        simp [update, hsrc, hproc, hsync] at heq
        obtain ⟨h1, h2⟩ := heq
        subst h2
        constructor <;> simp [clearSqlPreviewContext]
  · intro hv
    have hsrc : updateSourceText docUri activeEditor p none = none := by
      cases activeEditor with
      | none => rfl
      | some ed => simp [updateSourceText, truthyPrqlCode, hv]
    refine ⟨?_, ?_, ?_, ?_⟩
    · rw [update, hsrc, hsync]
    · intro src
      simp [clearSqlPreviewContext]
    · simp [applyEffects, applyEffect, clearSqlPreviewContext]
    · simp [applyEffects, applyEffect, clearSqlPreviewContext]

/-- C10 witness: a debounced cycle reaching the hidden fixture panel with no
code override produces exactly the clearing trace. -/
theorem update_hidden_clears_witness :
    update env1 docUri1 none pHidden none
      = some (pHidden.lastSqlHtml, clearSqlPreviewContext) :=
  ((update_hidden_clears_mirrored_state env1 docUri1 none pHidden none host0
    (Or.inl rfl)).2 rfl).1

end SqlPreview
